import Mathlib

/-!
Verification of the InfraMon metrics collection and aggregation subsystem.

This file gives a shallow embedding, in Lean, of the statistics core of the
backend (`app/services/docker_service.py`, `app/services/stats_service.py`,
`app/services/metrics_collector.py`) and proves properties of it.

Modelling conventions:
* Python floats are modelled as exact rationals (`ℚ`).
* Cumulative runtime counters (CPU times, byte counters, cpu counts) are
  naturals, as delivered by the container runtime; deltas are computed in `ℤ`.
* Python dicts whose keys matter to the properties (aggregated buckets,
  serialized samples) are modelled as insertion-ordered association lists
  `List (String × ℚ)`; `dict.get(k, d)` is `dictGet`.
* Fallible code paths (`try/except` with an error dict) are `Except String`.
* The database is a list of committed rows; each `session.commit()` in the
  source corresponds to one observable store state.
-/

namespace InfraMon

/-- Python float values, modelled exactly. -/
abbrev PyFloat := ℚ

/-- The `cpu_usage` object inside `cpu_stats` / `precpu_stats` of a Docker
stats snapshot: a cumulative CPU-time counter. -/
structure CpuUsage where
  total_usage : ℕ
  deriving DecidableEq

/-- The `cpu_stats` (or `precpu_stats`) object of a Docker stats snapshot.
`online_cpus` is optional: `cpu_stats.get("online_cpus", 1)` in the source. -/
structure CpuStats where
  cpu_usage : CpuUsage
  system_cpu_usage : ℕ
  online_cpus : Option ℕ
  deriving DecidableEq

/-- The `memory_stats` object: `usage` and `limit` are read with
`.get("usage", 0)` and `.get("limit", 1)` in the source, hence optional. -/
structure MemoryStats where
  usage : Option ℕ
  limit : Option ℕ
  deriving DecidableEq

/-- One per-interface entry of the `networks` dict of a snapshot. -/
structure NetworkCounters where
  rx_bytes : Option ℕ
  tx_bytes : Option ℕ
  deriving DecidableEq

/-- One entry of `blkio_stats.read_ops` / `blkio_stats.write_ops`; the source
reads `bt.get("value", 0)`. -/
structure BlkioEntry where
  value : Option ℕ
  deriving DecidableEq

/-- The `blkio_stats` object of a snapshot. -/
structure BlkioStats where
  read_ops : List BlkioEntry
  write_ops : List BlkioEntry
  deriving DecidableEq

/-- The `pids_stats` object of a snapshot. -/
structure PidsStats where
  current : Option ℕ
  deriving DecidableEq

/-- A raw Docker stats snapshot, as consumed by
`get_container_stats_formatted` (docker_service.py). Top-level keys read
with `.get(key, default)` in the source are optional. -/
structure StatsSnapshot where
  cpu_stats : CpuStats
  precpu_stats : CpuStats
  memory_stats : MemoryStats
  networks : Option (List (String × NetworkCounters))
  blkio_stats : Option BlkioStats
  pids_stats : Option PidsStats
  deriving DecidableEq

/-- `cpu_delta = cpu_stats.cpu_usage.total_usage - precpu_stats.cpu_usage.total_usage`. -/
def cpu_delta (s : StatsSnapshot) : ℤ :=
  (s.cpu_stats.cpu_usage.total_usage : ℤ) - (s.precpu_stats.cpu_usage.total_usage : ℤ)

/-- `system_delta = cpu_stats.system_cpu_usage - precpu_stats.system_cpu_usage`. -/
def system_delta (s : StatsSnapshot) : ℤ :=
  (s.cpu_stats.system_cpu_usage : ℤ) - (s.precpu_stats.system_cpu_usage : ℤ)

/-- `num_cpus = stats_data["cpu_stats"].get("online_cpus", 1)`. -/
def num_cpus (s : StatsSnapshot) : ℕ :=
  s.cpu_stats.online_cpus.getD 1

/-- The CPU percentage computed by `get_container_stats_formatted`
(docker_service.py, lines 700-714):
if `system_delta > 0 and cpu_delta > 0` then
`(cpu_delta / system_delta) * num_cpus * 100.0` else `0.0`. -/
def cpu_percent (s : StatsSnapshot) : PyFloat :=
  if 0 < system_delta s ∧ 0 < cpu_delta s then
    ((cpu_delta s : ℚ) / (system_delta s : ℚ)) * (num_cpus s : ℚ) * 100
  else 0

/-- Round-half-to-even on rationals, the rounding mode of Python `round`. -/
def roundHalfEven (q : ℚ) : ℤ :=
  if q - Int.floor q < 1 / 2 then Int.floor q
  else if 1 / 2 < q - Int.floor q then Int.floor q + 1
  else if Int.floor q % 2 = 0 then Int.floor q else Int.floor q + 1

/-- Python `round(q, 2)`. -/
def pyRound2 (q : ℚ) : ℚ := (roundHalfEven (q * 100) : ℚ) / 100

/-- `sum(net.get("rx_bytes", 0) for net in networks.values())` with
`networks = stats_data.get("networks", {})`. -/
def network_rx_of (s : StatsSnapshot) : ℕ :=
  ((s.networks.getD []).map (fun net => net.2.rx_bytes.getD 0)).sum

/-- `sum(net.get("tx_bytes", 0) for net in networks.values())`. -/
def network_tx_of (s : StatsSnapshot) : ℕ :=
  ((s.networks.getD []).map (fun net => net.2.tx_bytes.getD 0)).sum

/-- `sum(bt.get("value", 0) for bt in block_io.get("read_ops", []))`. -/
def block_read_of (s : StatsSnapshot) : ℕ :=
  (((s.blkio_stats.getD ⟨[], []⟩).read_ops).map (fun bt => bt.value.getD 0)).sum

/-- `sum(bt.get("value", 0) for bt in block_io.get("write_ops", []))`. -/
def block_write_of (s : StatsSnapshot) : ℕ :=
  (((s.blkio_stats.getD ⟨[], []⟩).write_ops).map (fun bt => bt.value.getD 0)).sum

/-- `stats_data.get("pids_stats", {}).get("current", 0)`. -/
def pids_of (s : StatsSnapshot) : ℕ :=
  (s.pids_stats.getD ⟨none⟩).current.getD 0

/-- The success-path return dict of `get_container_stats_formatted`. -/
structure FormattedStats where
  container_id : String
  cpu_usage : PyFloat
  memory_usage : PyFloat
  memory_limit : PyFloat
  memory_percent : PyFloat
  network_rx : ℕ
  network_tx : ℕ
  block_read : ℕ
  block_write : ℕ
  pids : ℕ
  deriving DecidableEq

/-- `get_container_stats_formatted` (docker_service.py, lines 694-743),
given an already-fetched raw snapshot. The memory percentage
`(memory_usage / memory_limit) * 100.0` raises `ZeroDivisionError` in Python
when the snapshot carries an explicit `limit` of `0` (the `.get` default `1`
applies only to a missing key); the surrounding `except` turns this into an
error dict, modelled as `Except.error`. -/
def get_container_stats_formatted (container_id : String) (s : StatsSnapshot) :
    Except String FormattedStats :=
  let memory_usage : ℕ := s.memory_stats.usage.getD 0
  let memory_limit : ℕ := s.memory_stats.limit.getD 1
  if memory_limit = 0 then
    Except.error "Error parsing stats: float division by zero"
  else
    Except.ok
      { container_id := container_id
        cpu_usage := pyRound2 (cpu_percent s)
        memory_usage := pyRound2 (memory_usage : ℚ)
        memory_limit := pyRound2 (memory_limit : ℚ)
        memory_percent := pyRound2 ((memory_usage : ℚ) / (memory_limit : ℚ) * 100)
        network_rx := network_rx_of s
        network_tx := network_tx_of s
        block_read := block_read_of s
        block_write := block_write_of s
        pids := pids_of s }

/-- A concrete snapshot: totals 100 → 200, system 1000 → 2000, 2 cpus. -/
def snapC1 : StatsSnapshot :=
  { cpu_stats := ⟨⟨200⟩, 2000, some 2⟩
    precpu_stats := ⟨⟨100⟩, 1000, some 2⟩
    memory_stats := ⟨some 500, some 1000⟩
    networks := none
    blkio_stats := none
    pids_stats := none }

/-- C1: for every container stats snapshot, the computed CPU percentage is
`(cpu_delta / system_delta) * online_cpus * 100` when both deltas are
positive (`online_cpus` defaulting to 1 when absent), and is exactly 0
otherwise; in particular it is 0 when `cur_system == prev_system`, and it is
never negative. -/
theorem c1_cpu_percent (s : StatsSnapshot) :
    (0 < system_delta s → 0 < cpu_delta s →
      cpu_percent s =
        ((cpu_delta s : ℚ) / (system_delta s : ℚ)) *
          ((s.cpu_stats.online_cpus.getD 1 : ℕ) : ℚ) * 100) ∧
    (¬ (0 < system_delta s ∧ 0 < cpu_delta s) → cpu_percent s = 0) ∧
    (s.cpu_stats.system_cpu_usage = s.precpu_stats.system_cpu_usage →
      cpu_percent s = 0) ∧
    0 ≤ cpu_percent s := by
  refine ⟨?_, ?_, ?_, ?_⟩
  · intro h1 h2
    simp only [cpu_percent, num_cpus, if_pos (And.intro h1 h2)]
  · intro h
    simp only [cpu_percent, if_neg h]
  · intro h
    have hz : system_delta s = 0 := by
      simp [system_delta, h]
    have : ¬ (0 < system_delta s ∧ 0 < cpu_delta s) := by
      intro hc
      rw [hz] at hc
      exact lt_irrefl 0 hc.1
    simp only [cpu_percent, if_neg this]
  · unfold cpu_percent
    split
    · rename_i h
      have hd : (0 : ℚ) < (cpu_delta s : ℚ) := by exact_mod_cast h.2
      have hs : (0 : ℚ) < (system_delta s : ℚ) := by exact_mod_cast h.1
      have hn : (0 : ℚ) ≤ ((num_cpus s : ℕ) : ℚ) := by positivity
      have := div_nonneg hd.le hs.le
      positivity
    · exact le_refl 0

/-- Witness for C1 at `snapC1`: both deltas positive, giving
`(100 / 1000) * 2 * 100 = 20`, and the value is nonnegative. -/
theorem c1_cpu_percent_witness :
    cpu_percent snapC1 = 20 ∧ 0 ≤ cpu_percent snapC1 := by
  have h := c1_cpu_percent snapC1
  have h1 := h.1 (by decide) (by decide)
  refine ⟨?_, h.2.2.2⟩
  rw [h1]
  norm_num [cpu_delta, system_delta, snapC1]

/-- A snapshot violating the spec's CPU bound: totals 0 → 200 against
system 0 → 100 on a single online cpu. -/
def snapC9 : StatsSnapshot :=
  { cpu_stats := ⟨⟨200⟩, 100, some 1⟩
    precpu_stats := ⟨⟨0⟩, 0, some 1⟩
    memory_stats := ⟨some 0, some 1⟩
    networks := none
    blkio_stats := none
    pids_stats := none }

/-- C9 counterexample: `snapC9` satisfies the claim's hypotheses
(`cur_system > prev_system`, `cur_total ≥ prev_total`), yet the computed
CPU percentage is 200, exceeding `online_cpus * 100 = 100`; the code has no
clamp when `cpu_delta > system_delta`. -/
theorem c9_counterexample :
    snapC9.precpu_stats.system_cpu_usage < snapC9.cpu_stats.system_cpu_usage ∧
    snapC9.precpu_stats.cpu_usage.total_usage ≤ snapC9.cpu_stats.cpu_usage.total_usage ∧
    cpu_percent snapC9 = 200 ∧
    ¬ cpu_percent snapC9 ≤ ((num_cpus snapC9 : ℕ) : ℚ) * 100 := by
  refine ⟨by decide, by decide, ?_, ?_⟩
  · unfold cpu_percent
    norm_num [cpu_delta, system_delta, num_cpus, snapC9]
  · unfold cpu_percent
    norm_num [cpu_delta, system_delta, num_cpus, snapC9]

/-- C9 (amended): for snapshot pairs with `cur_system > prev_system`,
`cur_total ≥ prev_total` and additionally
`cur_total - prev_total ≤ cur_system - prev_system`, the computed CPU
percentage satisfies `0 ≤ cpu_percent ≤ online_cpus * 100`. -/
theorem c9_cpu_percent_bounds (s : StatsSnapshot)
    (hsys : s.precpu_stats.system_cpu_usage < s.cpu_stats.system_cpu_usage)
    (_htot : s.precpu_stats.cpu_usage.total_usage ≤ s.cpu_stats.cpu_usage.total_usage)
    (hdelta : cpu_delta s ≤ system_delta s) :
    0 ≤ cpu_percent s ∧ cpu_percent s ≤ ((num_cpus s : ℕ) : ℚ) * 100 := by
  have hlow := (c1_cpu_percent s).2.2.2
  refine ⟨hlow, ?_⟩
  have hs : 0 < system_delta s := by
    simp only [system_delta, sub_pos]
    exact_mod_cast hsys
  unfold cpu_percent
  split
  · rename_i h
    have hsQ : (0 : ℚ) < (system_delta s : ℚ) := by exact_mod_cast hs
    have hdQ : (cpu_delta s : ℚ) ≤ (system_delta s : ℚ) := by exact_mod_cast hdelta
    have hratio : (cpu_delta s : ℚ) / (system_delta s : ℚ) ≤ 1 :=
      (div_le_one hsQ).mpr hdQ
    have hn : (0 : ℚ) ≤ ((num_cpus s : ℕ) : ℚ) := by positivity
    calc (cpu_delta s : ℚ) / (system_delta s : ℚ) * ((num_cpus s : ℕ) : ℚ) * 100
        ≤ 1 * ((num_cpus s : ℕ) : ℚ) * 100 := by
          have hd0 : (0 : ℚ) ≤ (cpu_delta s : ℚ) / (system_delta s : ℚ) := by
            have : (0 : ℚ) < (cpu_delta s : ℚ) := by exact_mod_cast h.2
            positivity
          nlinarith
      _ = ((num_cpus s : ℕ) : ℚ) * 100 := by ring
  · positivity

/-- Witness for C9 (amended) at `snapC1`: hypotheses hold concretely and the
bound `0 ≤ 20 ≤ 2 * 100` follows. -/
theorem c9_cpu_percent_bounds_witness :
    0 ≤ cpu_percent snapC1 ∧ cpu_percent snapC1 ≤ ((num_cpus snapC1 : ℕ) : ℚ) * 100 :=
  c9_cpu_percent_bounds snapC1 (by decide) (by decide) (by decide)

/-- A snapshot whose `memory_stats` carries an explicit `limit` of `0`. -/
def snapC4 : StatsSnapshot :=
  { cpu_stats := ⟨⟨0⟩, 0, some 1⟩
    precpu_stats := ⟨⟨0⟩, 0, some 1⟩
    memory_stats := ⟨some 500, some 0⟩
    networks := none
    blkio_stats := none
    pids_stats := none }

/-- C4 counterexample: with `usage = 500` and an explicit `limit = 0` the
memory computation divides by zero; `get_container_stats_formatted` returns
the caught-exception error dict, not a stats dict with `memory_percent = 0`.
The `.get("limit", 1)` default applies only when the key is absent. -/
theorem c4_counterexample :
    get_container_stats_formatted "cid" snapC4 =
      Except.error "Error parsing stats: float division by zero" := by
  rfl

/-- C4 (amended): `memory_percent` equals `used / limit * 100` (rounded to
two decimals in the returned dict) whenever the snapshot's effective limit
`limit.getD 1` is nonzero — in particular a missing limit defaults to 1 — and
when the snapshot carries an explicit limit of 0 the division raises, so the
whole call returns an error dict instead of a zero percentage. -/
theorem c4_memory_percent (container_id : String) (s : StatsSnapshot) :
    (s.memory_stats.limit.getD 1 ≠ 0 →
      Except.map (fun f => f.memory_percent)
          (get_container_stats_formatted container_id s) =
        Except.ok (pyRound2
          ((s.memory_stats.usage.getD 0 : ℚ) / (s.memory_stats.limit.getD 1 : ℚ) * 100))) ∧
    (s.memory_stats.limit.getD 1 = 0 →
      get_container_stats_formatted container_id s =
        Except.error "Error parsing stats: float division by zero") := by
  constructor
  · intro h
    simp only [get_container_stats_formatted, if_neg h, Except.map]
  · intro h
    simp only [get_container_stats_formatted, if_pos h]

/-- Witness for C4 (amended): `memory_percent(500, 1000) = 50`. -/
theorem c4_memory_percent_witness :
    Except.map (fun f => f.memory_percent)
        (get_container_stats_formatted "cid" snapC1) = Except.ok 50 := by
  have h := (c4_memory_percent "cid" snapC1).1 (by decide)
  rw [h]
  norm_num [snapC1, pyRound2, roundHalfEven]

/-- One row of the `system_stats` table (models/system_stats.py); the
timestamp is kept as UTC epoch seconds. -/
structure SystemStat where
  id : ℕ
  cpu_usage : PyFloat
  memory_usage : PyFloat
  memory_total : PyFloat
  disk_usage : PyFloat
  disk_total : PyFloat
  network_rx : PyFloat
  network_tx : PyFloat
  load_avg_1m : PyFloat
  load_avg_5m : PyFloat
  load_avg_15m : PyFloat
  uptime : PyFloat
  timestamp : PyFloat
  deriving DecidableEq

/-- One row of the `container_stats` table (models/container_stats.py). -/
structure ContainerStat where
  id : ℕ
  container_id : ℕ
  cpu_usage : PyFloat
  memory_usage : PyFloat
  memory_limit : PyFloat
  network_rx : PyFloat
  network_tx : PyFloat
  block_read : PyFloat
  block_write : PyFloat
  pids : ℕ
  timestamp : PyFloat
  deriving DecidableEq

/-- Python `int()` truncation toward zero of a float value. -/
def pyInt (q : ℚ) : ℤ :=
  if 0 ≤ q then Int.floor q else Int.ceil q

/-- `interval_map.get(period, 60)` of `_aggregate_system_stats` /
`_aggregate_container_stats` (stats_service.py): bucket width in seconds. -/
def interval_map (period : String) : ℕ :=
  (List.lookup period
    [("1h", 60), ("6h", 300), ("24h", 900), ("7d", 3600), ("30d", 14400)]).getD 60

/-- `int(stat.timestamp.timestamp() / interval_seconds) * interval_seconds`:
the bucket start of a sample taken at epoch time `ts`. -/
def interval_timestamp (ts : ℚ) (interval_seconds : ℕ) : ℤ :=
  pyInt (ts / (interval_seconds : ℚ)) * (interval_seconds : ℤ)

/-- Bucket key of a system sample under a bucket width. -/
def sysBucketKey (w : ℕ) (s : SystemStat) : ℤ := interval_timestamp s.timestamp w

/-- Bucket key of a container sample under a bucket width. -/
def conBucketKey (w : ℕ) (s : ContainerStat) : ℤ := interval_timestamp s.timestamp w

/-- Append one sample to the list kept at key `k` of an insertion-ordered
dict (Python dict of lists, as built by the aggregation loop). -/
def dictAppend (k : ℤ) (x : α) : List (ℤ × List α) → List (ℤ × List α)
  | [] => [(k, [x])]
  | (j, l) :: rest =>
      if j = k then (j, l ++ [x]) :: rest else (j, l) :: dictAppend k x rest

/-- The value stored at key `k` of such a dict (empty when absent). -/
def dictGetList (k : ℤ) : List (ℤ × List α) → List α
  | [] => []
  | (j, l) :: rest => if j = k then l else dictGetList k rest

/-- The `aggregated` dict of the aggregation loop: samples grouped by bucket
key, keys in first-seen order, each key holding its samples in list order. -/
def groupByKey (key : α → ℤ) (stats : List α) : List (ℤ × List α) :=
  stats.foldl (fun d s => dictAppend (key s) s d) []

/-- A Python dict with string keys and float values, as emitted per bucket. -/
abbrev PyDict := List (String × ℚ)

/-- Python `d.get(k, default)` on such a dict. -/
def dictGet (d : PyDict) (k : String) (default : ℚ) : ℚ :=
  (List.lookup k d).getD default

/-- `sum(l) / len(l) if l else 0`. -/
def pyAvg (l : List ℚ) : ℚ :=
  if l = [] then 0 else l.sum / (l.length : ℚ)

/-- `max(l) if l else 0`. -/
def pyMax (l : List ℚ) : ℚ :=
  match l with
  | [] => 0
  | x :: xs => xs.foldl max x

/-- `min(l) if l else 0`. -/
def pyMin (l : List ℚ) : ℚ :=
  match l with
  | [] => 0
  | x :: xs => xs.foldl min x

/-- `l[-1] if l else 0`. -/
def pyLastD (l : List ℚ) : ℚ := (l.getLast?).getD 0

/-- The per-bucket dict emitted by `_aggregate_system_stats`
(stats_service.py, lines 462-478) for bucket start `k` holding samples `l`. -/
def mkSystemBucket (k : ℤ) (l : List SystemStat) : PyDict :=
  [("timestamp", (k : ℚ)),
   ("cpu_usage_avg", pyAvg (l.map (fun s => s.cpu_usage))),
   ("cpu_usage_max", pyMax (l.map (fun s => s.cpu_usage))),
   ("cpu_usage_min", pyMin (l.map (fun s => s.cpu_usage))),
   ("memory_usage_avg", pyAvg (l.map (fun s => s.memory_usage))),
   ("memory_usage_max", pyMax (l.map (fun s => s.memory_usage))),
   ("memory_usage_min", pyMin (l.map (fun s => s.memory_usage))),
   ("network_rx", pyLastD (l.map (fun s => s.network_rx))),
   ("network_tx", pyLastD (l.map (fun s => s.network_tx))),
   ("disk_usage", pyLastD (l.map (fun s => s.disk_usage))),
   ("load_avg_1m", pyLastD (l.map (fun s => s.load_avg_1m)))]

/-- The per-bucket dict emitted by `_aggregate_container_stats`
(stats_service.py, lines 518-530) for bucket start `k` holding samples `l`. -/
def mkContainerBucket (k : ℤ) (l : List ContainerStat) : PyDict :=
  [("timestamp", (k : ℚ)),
   ("cpu_usage_avg", pyAvg (l.map (fun s => s.cpu_usage))),
   ("cpu_usage_max", pyMax (l.map (fun s => s.cpu_usage))),
   ("memory_usage_avg", pyAvg (l.map (fun s => s.memory_usage))),
   ("memory_usage_max", pyMax (l.map (fun s => s.memory_usage))),
   ("network_rx", pyLastD (l.map (fun s => s.network_rx))),
   ("network_tx", pyLastD (l.map (fun s => s.network_tx)))]

/-- `_aggregate_system_stats(stats, period)` (stats_service.py, 420-478):
group samples by bucket start, then emit one dict per bucket in ascending
key order (`sorted(aggregated.items())`). -/
def aggregate_system_stats (stats : List SystemStat) (period : String) :
    List PyDict :=
  if stats = [] then []
  else
    let w := interval_map period
    let grouped := groupByKey (sysBucketKey w) stats
    (List.insertionSort (fun a b => a ≤ b) (grouped.map Prod.fst)).map
      (fun k => mkSystemBucket k (dictGetList k grouped))

/-- `_aggregate_container_stats(stats, period)` (stats_service.py, 480-530). -/
def aggregate_container_stats (stats : List ContainerStat) (period : String) :
    List PyDict :=
  if stats = [] then []
  else
    let w := interval_map period
    let grouped := groupByKey (conBucketKey w) stats
    (List.insertionSort (fun a b => a ≤ b) (grouped.map Prod.fst)).map
      (fun k => mkContainerBucket k (dictGetList k grouped))

theorem dictGetList_dictAppend (q k : ℤ) (x : α) (d : List (ℤ × List α)) :
    dictGetList q (dictAppend k x d) =
      if q = k then dictGetList q d ++ [x] else dictGetList q d := by
  induction d with
  | nil =>
      by_cases h : q = k
      · subst h; simp [dictAppend, dictGetList]
      · have h2 : ¬ k = q := fun hh => h hh.symm
        simp [dictAppend, dictGetList, h, h2]
  | cons p rest ih =>
      obtain ⟨j, l⟩ := p
      by_cases hjk : j = k
      · subst hjk
        by_cases hq : q = j
        · subst hq; simp [dictAppend, dictGetList]
        · have h2 : ¬ j = q := fun hh => hq hh.symm
          simp [dictAppend, dictGetList, hq, h2]
      · by_cases hjq : j = q
        · have hqk : ¬ q = k := fun hh => hjk (hjq.trans hh)
          simp [dictAppend, dictGetList, hjk, hjq, hqk]
        · simp [dictAppend, dictGetList, hjk, hjq, ih]

theorem foldl_dictAppend_getList (key : α → ℤ) (stats : List α) :
    ∀ (d : List (ℤ × List α)) (q : ℤ),
      dictGetList q (stats.foldl (fun d s => dictAppend (key s) s d) d) =
        dictGetList q d ++ stats.filter (fun s => decide (key s = q)) := by
  induction stats with
  | nil => intro d q; simp
  | cons s rest ih =>
      intro d q
      simp only [List.foldl_cons]
      rw [ih, dictGetList_dictAppend]
      by_cases h : key s = q
      · subst h
        simp [List.filter_cons]
      · have hq : ¬ q = key s := fun hh => h hh.symm
        simp [List.filter_cons, h, hq]

/-- The samples grouped at key `q` are exactly the samples whose bucket key
is `q`, in their original order. -/
theorem groupByKey_getList (key : α → ℤ) (stats : List α) (q : ℤ) :
    dictGetList q (groupByKey key stats) =
      stats.filter (fun s => decide (key s = q)) := by
  simpa [dictGetList] using foldl_dictAppend_getList key stats [] q

theorem keys_dictAppend (k : ℤ) (x : α) (d : List (ℤ × List α)) :
    (dictAppend k x d).map Prod.fst =
      if k ∈ d.map Prod.fst then d.map Prod.fst else d.map Prod.fst ++ [k] := by
  induction d with
  | nil => simp [dictAppend]
  | cons p rest ih =>
      obtain ⟨j, l⟩ := p
      by_cases hjk : j = k
      · subst hjk; simp [dictAppend]
      · have hkj : ¬ k = j := fun hh => hjk hh.symm
        by_cases hk : k ∈ rest.map Prod.fst
        · simp [dictAppend, hjk, hkj, hk, ih]
        · simp [dictAppend, hjk, hkj, hk, ih]

theorem mem_keys_dictAppend (q k : ℤ) (x : α) (d : List (ℤ × List α)) :
    q ∈ (dictAppend k x d).map Prod.fst ↔ q ∈ d.map Prod.fst ∨ q = k := by
  rw [keys_dictAppend]
  by_cases hk : k ∈ d.map Prod.fst
  · simp only [if_pos hk]
    constructor
    · exact Or.inl
    · rintro (h | rfl)
      · exact h
      · exact hk
  · simp [if_neg hk]

theorem mem_keys_foldl (key : α → ℤ) (stats : List α) :
    ∀ (d : List (ℤ × List α)) (q : ℤ),
      q ∈ ((stats.foldl (fun d s => dictAppend (key s) s d) d).map Prod.fst) ↔
        q ∈ d.map Prod.fst ∨ ∃ s ∈ stats, key s = q := by
  induction stats with
  | nil => intro d q; simp
  | cons s rest ih =>
      intro d q
      simp only [List.foldl_cons]
      rw [ih, mem_keys_dictAppend]
      constructor
      · rintro ((h | rfl) | ⟨t, ht, rfl⟩)
        · exact Or.inl h
        · exact Or.inr ⟨s, List.mem_cons_self s rest, rfl⟩
        · exact Or.inr ⟨t, List.mem_cons_of_mem s ht, rfl⟩
      · rintro (h | ⟨t, ht, rfl⟩)
        · exact Or.inl (Or.inl h)
        · rcases List.mem_cons.mp ht with rfl | ht2
          · exact Or.inl (Or.inr rfl)
          · exact Or.inr ⟨t, ht2, rfl⟩

/-- A bucket key occurs in the grouping exactly when some sample maps to it. -/
theorem mem_keys_groupByKey (key : α → ℤ) (stats : List α) (q : ℤ) :
    q ∈ (groupByKey key stats).map Prod.fst ↔ ∃ s ∈ stats, key s = q := by
  simpa using mem_keys_foldl key stats [] q

theorem keys_nodup_foldl (key : α → ℤ) (stats : List α) :
    ∀ d : List (ℤ × List α),
      (d.map Prod.fst).Nodup →
      ((stats.foldl (fun d s => dictAppend (key s) s d) d).map Prod.fst).Nodup := by
  induction stats with
  | nil => intro d h; simpa using h
  | cons s rest ih =>
      intro d h
      simp only [List.foldl_cons]
      refine ih _ ?_
      rw [keys_dictAppend]
      by_cases hk : key s ∈ d.map Prod.fst
      · simpa [if_pos hk] using h
      · simp only [if_neg hk]
        rw [List.nodup_append]
        refine ⟨h, List.nodup_singleton _, ?_⟩
        intro a ha hb
        have hax : a = key s := by simpa using hb
        subst hax
        exact hk ha

/-- The grouping has pairwise-distinct bucket keys (it is a Python dict). -/
theorem groupByKey_keys_nodup (key : α → ℤ) (stats : List α) :
    ((groupByKey key stats).map Prod.fst).Nodup := by
  simpa using keys_nodup_foldl key stats [] (by simp)

/-- Characterization of the system aggregation output: its buckets are
exactly the dicts `mkSystemBucket k (samples whose bucket start is k)` for
the keys `k` hit by at least one sample. -/
theorem mem_aggregate_system_stats (stats : List SystemStat) (period : String)
    (b : PyDict) :
    b ∈ aggregate_system_stats stats period ↔
      ∃ k : ℤ, (∃ s ∈ stats, sysBucketKey (interval_map period) s = k) ∧
        b = mkSystemBucket k
          (stats.filter (fun s => decide (sysBucketKey (interval_map period) s = k))) := by
  unfold aggregate_system_stats
  by_cases hs : stats = []
  · subst hs; simp
  · simp only [if_neg hs, List.mem_map]
    constructor
    · rintro ⟨k, hk, rfl⟩
      have hk2 : k ∈ (groupByKey (sysBucketKey (interval_map period)) stats).map Prod.fst :=
        (List.perm_insertionSort _ _).mem_iff.mp hk
      refine ⟨k, (mem_keys_groupByKey _ _ _).mp hk2, ?_⟩
      rw [groupByKey_getList]
    · rintro ⟨k, hmem, rfl⟩
      refine ⟨k, ?_, ?_⟩
      · exact (List.perm_insertionSort _ _).mem_iff.mpr
          ((mem_keys_groupByKey _ _ _).mpr hmem)
      · rw [groupByKey_getList]

/-- Characterization of the container aggregation output. -/
theorem mem_aggregate_container_stats (stats : List ContainerStat)
    (period : String) (b : PyDict) :
    b ∈ aggregate_container_stats stats period ↔
      ∃ k : ℤ, (∃ s ∈ stats, conBucketKey (interval_map period) s = k) ∧
        b = mkContainerBucket k
          (stats.filter (fun s => decide (conBucketKey (interval_map period) s = k))) := by
  unfold aggregate_container_stats
  by_cases hs : stats = []
  · subst hs; simp
  · simp only [if_neg hs, List.mem_map]
    constructor
    · rintro ⟨k, hk, rfl⟩
      have hk2 : k ∈ (groupByKey (conBucketKey (interval_map period)) stats).map Prod.fst :=
        (List.perm_insertionSort _ _).mem_iff.mp hk
      refine ⟨k, (mem_keys_groupByKey _ _ _).mp hk2, ?_⟩
      rw [groupByKey_getList]
    · rintro ⟨k, hmem, rfl⟩
      refine ⟨k, ?_, ?_⟩
      · exact (List.perm_insertionSort _ _).mem_iff.mpr
          ((mem_keys_groupByKey _ _ _).mpr hmem)
      · rw [groupByKey_getList]

theorem dictGet_mkSystemBucket_timestamp (k : ℤ) (l : List SystemStat) :
    dictGet (mkSystemBucket k l) "timestamp" 0 = (k : ℚ) := rfl

theorem dictGet_mkContainerBucket_timestamp (k : ℤ) (l : List ContainerStat) :
    dictGet (mkContainerBucket k l) "timestamp" 0 = (k : ℚ) := rfl

theorem aggregate_system_stats_timestamps_sorted
    (stats : List SystemStat) (period : String) :
    List.Sorted (fun a b : ℚ => a < b)
      ((aggregate_system_stats stats period).map
        (fun b => dictGet b "timestamp" 0)) := by
  unfold aggregate_system_stats
  by_cases hs : stats = []
  · subst hs; simp
  · simp only [if_neg hs]
    rw [List.map_map]
    have heq : ((fun b => dictGet b "timestamp" 0) ∘
        fun k => mkSystemBucket k
          (dictGetList k (groupByKey (sysBucketKey (interval_map period)) stats))) =
        fun k : ℤ => (k : ℚ) := funext fun k => rfl
    rw [heq]
    have hsorted :=
      List.sorted_insertionSort (fun a b : ℤ => a ≤ b)
        ((groupByKey (sysBucketKey (interval_map period)) stats).map Prod.fst)
    have hnodup :
        (List.insertionSort (fun a b : ℤ => a ≤ b)
          ((groupByKey (sysBucketKey (interval_map period)) stats).map Prod.fst)).Nodup :=
      (List.perm_insertionSort _ _).nodup_iff.mpr (groupByKey_keys_nodup _ _)
    have hlt := hsorted.lt_of_le hnodup
    exact List.pairwise_map.mpr (hlt.imp fun h => by exact_mod_cast h)

theorem aggregate_container_stats_timestamps_sorted
    (stats : List ContainerStat) (period : String) :
    List.Sorted (fun a b : ℚ => a < b)
      ((aggregate_container_stats stats period).map
        (fun b => dictGet b "timestamp" 0)) := by
  unfold aggregate_container_stats
  by_cases hs : stats = []
  · subst hs; simp
  · simp only [if_neg hs]
    rw [List.map_map]
    have heq : ((fun b => dictGet b "timestamp" 0) ∘
        fun k => mkContainerBucket k
          (dictGetList k (groupByKey (conBucketKey (interval_map period)) stats))) =
        fun k : ℤ => (k : ℚ) := funext fun k => rfl
    rw [heq]
    have hsorted :=
      List.sorted_insertionSort (fun a b : ℤ => a ≤ b)
        ((groupByKey (conBucketKey (interval_map period)) stats).map Prod.fst)
    have hnodup :
        (List.insertionSort (fun a b : ℤ => a ≤ b)
          ((groupByKey (conBucketKey (interval_map period)) stats).map Prod.fst)).Nodup :=
      (List.perm_insertionSort _ _).nodup_iff.mpr (groupByKey_keys_nodup _ _)
    have hlt := hsorted.lt_of_le hnodup
    exact List.pairwise_map.mpr (hlt.imp fun h => by exact_mod_cast h)

/-- For nonnegative values Python `int()` truncation is the floor. -/
theorem pyInt_eq_floor (q : ℚ) (h : 0 ≤ q) : pyInt q = Int.floor q :=
  if_pos h

/-- C2: for every period in the literal set, aggregation uses the fixed
widths 1h→60s, 6h→300s, 24h→900s, 7d→3600s, 30d→14400s; each sample is
assigned to `bucket_start = floor(timestamp / width) * width`; samples
sharing a bucket start aggregate together; buckets are emitted in strictly
ascending timestamp order; and every emitted bucket contains at least one
sample (empty buckets are omitted, never zero-filled). -/
theorem c2_bucketing (period : String) (stats : List SystemStat)
    (cstats : List ContainerStat)
    (_hp : period ∈ ["1h", "6h", "24h", "7d", "30d"])
    (hts : ∀ s ∈ stats, 0 ≤ s.timestamp)
    (hcts : ∀ s ∈ cstats, 0 ≤ s.timestamp) :
    ((period = "1h" → interval_map period = 60) ∧
     (period = "6h" → interval_map period = 300) ∧
     (period = "24h" → interval_map period = 900) ∧
     (period = "7d" → interval_map period = 3600) ∧
     (period = "30d" → interval_map period = 14400)) ∧
    (∀ s ∈ stats, sysBucketKey (interval_map period) s =
      Int.floor (s.timestamp / (interval_map period : ℚ)) * (interval_map period : ℤ)) ∧
    (∀ s ∈ cstats, conBucketKey (interval_map period) s =
      Int.floor (s.timestamp / (interval_map period : ℚ)) * (interval_map period : ℤ)) ∧
    List.Sorted (fun a b : ℚ => a < b)
      ((aggregate_system_stats stats period).map (fun b => dictGet b "timestamp" 0)) ∧
    List.Sorted (fun a b : ℚ => a < b)
      ((aggregate_container_stats cstats period).map (fun b => dictGet b "timestamp" 0)) ∧
    (∀ b ∈ aggregate_system_stats stats period,
      ∃ s ∈ stats,
        dictGet b "timestamp" 0 = ((sysBucketKey (interval_map period) s : ℤ) : ℚ)) ∧
    (∀ b ∈ aggregate_container_stats cstats period,
      ∃ s ∈ cstats,
        dictGet b "timestamp" 0 = ((conBucketKey (interval_map period) s : ℤ) : ℚ)) ∧
    (∀ k : ℤ, (∃ s ∈ stats, sysBucketKey (interval_map period) s = k) →
      mkSystemBucket k
          (stats.filter (fun s => decide (sysBucketKey (interval_map period) s = k)))
        ∈ aggregate_system_stats stats period) ∧
    (∀ k : ℤ, (∃ s ∈ cstats, conBucketKey (interval_map period) s = k) →
      mkContainerBucket k
          (cstats.filter (fun s => decide (conBucketKey (interval_map period) s = k)))
        ∈ aggregate_container_stats cstats period) := by
  refine ⟨⟨?_, ?_, ?_, ?_, ?_⟩, ?_, ?_, ?_, ?_, ?_, ?_, ?_, ?_⟩
  · intro h; subst h; rfl
  · intro h; subst h; rfl
  · intro h; subst h; rfl
  · intro h; subst h; rfl
  · intro h; subst h; rfl
  · intro s hsmem
    have h0 : (0 : ℚ) ≤ s.timestamp / (interval_map period : ℚ) :=
      div_nonneg (hts s hsmem) (by positivity)
    simp [sysBucketKey, interval_timestamp, pyInt_eq_floor _ h0]
  · intro s hsmem
    have h0 : (0 : ℚ) ≤ s.timestamp / (interval_map period : ℚ) :=
      div_nonneg (hcts s hsmem) (by positivity)
    simp [conBucketKey, interval_timestamp, pyInt_eq_floor _ h0]
  · exact aggregate_system_stats_timestamps_sorted stats period
  · exact aggregate_container_stats_timestamps_sorted cstats period
  · intro b hb
    obtain ⟨k, ⟨s, hsmem, hkey⟩, rfl⟩ :=
      (mem_aggregate_system_stats stats period b).mp hb
    exact ⟨s, hsmem, by rw [dictGet_mkSystemBucket_timestamp, hkey]⟩
  · intro b hb
    obtain ⟨k, ⟨s, hsmem, hkey⟩, rfl⟩ :=
      (mem_aggregate_container_stats cstats period b).mp hb
    exact ⟨s, hsmem, by rw [dictGet_mkContainerBucket_timestamp, hkey]⟩
  · intro k hk
    exact (mem_aggregate_system_stats stats period _).mpr ⟨k, hk, rfl⟩
  · intro k hk
    exact (mem_aggregate_container_stats cstats period _).mpr ⟨k, hk, rfl⟩

/-- A system sample at `t = 0` with cpu 10. -/
def sysA2 : SystemStat :=
  { id := 1, cpu_usage := 10, memory_usage := 0, memory_total := 0
    disk_usage := 0, disk_total := 0, network_rx := 0, network_tx := 0
    load_avg_1m := 0, load_avg_5m := 0, load_avg_15m := 0
    uptime := 0, timestamp := 0 }

/-- A system sample at `t = 60` with cpu 20. -/
def sysB2 : SystemStat :=
  { id := 2, cpu_usage := 20, memory_usage := 0, memory_total := 0
    disk_usage := 0, disk_total := 0, network_rx := 0, network_tx := 0
    load_avg_1m := 0, load_avg_5m := 0, load_avg_15m := 0
    uptime := 0, timestamp := 60 }

/-- A container sample at `t = 30`. -/
def conA2 : ContainerStat :=
  { id := 1, container_id := 1, cpu_usage := 5, memory_usage := 100
    memory_limit := 1000, network_rx := 7, network_tx := 8
    block_read := 1, block_write := 2, pids := 3, timestamp := 30 }

/-- Witness for C2 at period `1h` with two system samples in distinct
buckets and one container sample. -/
theorem c2_bucketing_witness :
    interval_map "1h" = 60 ∧
    List.Sorted (fun a b : ℚ => a < b)
      ((aggregate_system_stats [sysA2, sysB2] "1h").map
        (fun b => dictGet b "timestamp" 0)) := by
  have h := c2_bucketing "1h" [sysA2, sysB2] [conA2]
    (by decide) (by decide) (by decide)
  exact ⟨h.1.1 rfl, h.2.2.2.1⟩

/-- A system sample at `t = 0` with disk usage 10. -/
def sysD1 : SystemStat :=
  { id := 1, cpu_usage := 0, memory_usage := 0, memory_total := 0
    disk_usage := 10, disk_total := 0, network_rx := 0, network_tx := 0
    load_avg_1m := 0, load_avg_5m := 0, load_avg_15m := 0
    uptime := 0, timestamp := 0 }

/-- A system sample at `t = 30` (same 60s bucket) with disk usage 30. -/
def sysD2 : SystemStat :=
  { id := 2, cpu_usage := 0, memory_usage := 0, memory_total := 0
    disk_usage := 30, disk_total := 0, network_rx := 0, network_tx := 0
    load_avg_1m := 0, load_avg_5m := 0, load_avg_15m := 0
    uptime := 0, timestamp := 30 }

/-- C3 counterexample: a bucket holding disk-usage samples `[10, 30]` is
emitted with `disk_usage = 30` (the last sample's raw value), not the avg 20,
and carries no `disk_usage_avg` / `disk_usage_min` / `disk_usage_max` keys —
so `disk_usage` (a gauge per the claim) is not reported as avg/max/min. -/
theorem c3_counterexample :
    dictGet ((aggregate_system_stats [sysD1, sysD2] "1h").headI) "disk_usage" 0 = 30 ∧
    ¬ dictGet ((aggregate_system_stats [sysD1, sysD2] "1h").headI) "disk_usage" 0 = 20 ∧
    List.lookup "disk_usage_avg"
      ((aggregate_system_stats [sysD1, sysD2] "1h").headI) = none ∧
    List.lookup "disk_usage_min"
      ((aggregate_system_stats [sysD1, sysD2] "1h").headI) = none ∧
    List.lookup "disk_usage_max"
      ((aggregate_system_stats [sysD1, sysD2] "1h").headI) = none := by
  have hw : interval_map "1h" = 60 := rfl
  have hk1 : sysBucketKey (interval_map "1h") sysD1 = 0 := by
    rw [hw]
    norm_num [sysBucketKey, interval_timestamp, pyInt, sysD1]
  have hk2 : sysBucketKey (interval_map "1h") sysD2 = 0 := by
    rw [hw]
    norm_num [sysBucketKey, interval_timestamp, pyInt, sysD2]
  have hagg : aggregate_system_stats [sysD1, sysD2] "1h" =
      [mkSystemBucket 0 [sysD1, sysD2]] := by
    simp [aggregate_system_stats, groupByKey, hk1, hk2, dictAppend, dictGetList,
      List.insertionSort, List.orderedInsert]
  rw [hagg]
  refine ⟨rfl, ?_, rfl, rfl, rfl⟩
  have hv : dictGet (mkSystemBucket 0 [sysD1, sysD2]) "disk_usage" 0 = 30 := rfl
  rw [List.headI, hv]
  norm_num

/-- C3 (amended): in every non-empty bucket, the system aggregation reports
cpu_usage and memory_usage as `{avg, max, min}` of the bucket's samples,
while disk_usage and load_avg_1m are reported as the last sample's raw value
(no avg/min/max fields exist for them); network_rx/tx are the last raw
value. The container aggregation reports cpu_usage and memory_usage as
`{avg, max}` only (no min), network_rx/tx as the last raw value, and emits
no block_read / block_write fields at all. -/
theorem c3_metric_aggregation (period : String) (stats : List SystemStat)
    (cstats : List ContainerStat) :
    (∀ b ∈ aggregate_system_stats stats period, ∃ (k : ℤ) (l : List SystemStat),
      l = stats.filter (fun s => decide (sysBucketKey (interval_map period) s = k)) ∧
      l ≠ [] ∧
      dictGet b "timestamp" 0 = (k : ℚ) ∧
      dictGet b "cpu_usage_avg" 0 = pyAvg (l.map (fun s => s.cpu_usage)) ∧
      dictGet b "cpu_usage_max" 0 = pyMax (l.map (fun s => s.cpu_usage)) ∧
      dictGet b "cpu_usage_min" 0 = pyMin (l.map (fun s => s.cpu_usage)) ∧
      dictGet b "memory_usage_avg" 0 = pyAvg (l.map (fun s => s.memory_usage)) ∧
      dictGet b "memory_usage_max" 0 = pyMax (l.map (fun s => s.memory_usage)) ∧
      dictGet b "memory_usage_min" 0 = pyMin (l.map (fun s => s.memory_usage)) ∧
      dictGet b "network_rx" 0 = pyLastD (l.map (fun s => s.network_rx)) ∧
      dictGet b "network_tx" 0 = pyLastD (l.map (fun s => s.network_tx)) ∧
      dictGet b "disk_usage" 0 = pyLastD (l.map (fun s => s.disk_usage)) ∧
      dictGet b "load_avg_1m" 0 = pyLastD (l.map (fun s => s.load_avg_1m)) ∧
      List.lookup "disk_usage_avg" b = none ∧
      List.lookup "disk_usage_min" b = none ∧
      List.lookup "load_avg_1m_avg" b = none ∧
      List.lookup "block_read" b = none ∧
      List.lookup "block_write" b = none) ∧
    (∀ b ∈ aggregate_container_stats cstats period, ∃ (k : ℤ) (l : List ContainerStat),
      l = cstats.filter (fun s => decide (conBucketKey (interval_map period) s = k)) ∧
      l ≠ [] ∧
      dictGet b "timestamp" 0 = (k : ℚ) ∧
      dictGet b "cpu_usage_avg" 0 = pyAvg (l.map (fun s => s.cpu_usage)) ∧
      dictGet b "cpu_usage_max" 0 = pyMax (l.map (fun s => s.cpu_usage)) ∧
      dictGet b "memory_usage_avg" 0 = pyAvg (l.map (fun s => s.memory_usage)) ∧
      dictGet b "memory_usage_max" 0 = pyMax (l.map (fun s => s.memory_usage)) ∧
      dictGet b "network_rx" 0 = pyLastD (l.map (fun s => s.network_rx)) ∧
      dictGet b "network_tx" 0 = pyLastD (l.map (fun s => s.network_tx)) ∧
      List.lookup "cpu_usage_min" b = none ∧
      List.lookup "memory_usage_min" b = none ∧
      List.lookup "block_read" b = none ∧
      List.lookup "block_write" b = none) := by
  constructor
  · intro b hb
    obtain ⟨k, ⟨s, hsmem, hkey⟩, rfl⟩ :=
      (mem_aggregate_system_stats stats period b).mp hb
    refine ⟨k, _, rfl, ?_, rfl, rfl, rfl, rfl, rfl, rfl, rfl, rfl, rfl, rfl, rfl,
      rfl, rfl, rfl, rfl, rfl⟩
    exact List.ne_nil_of_mem (List.mem_filter.mpr ⟨hsmem, by simpa using hkey⟩)
  · intro b hb
    obtain ⟨k, ⟨s, hsmem, hkey⟩, rfl⟩ :=
      (mem_aggregate_container_stats cstats period b).mp hb
    refine ⟨k, _, rfl, ?_, rfl, rfl, rfl, rfl, rfl, rfl, rfl, rfl, rfl, rfl, rfl⟩
    exact List.ne_nil_of_mem (List.mem_filter.mpr ⟨hsmem, by simpa using hkey⟩)

/-- A container sample at `t = 30` used in the C3 witness. -/
def conD1 : ContainerStat :=
  { id := 1, container_id := 1, cpu_usage := 5, memory_usage := 100
    memory_limit := 1000, network_rx := 7, network_tx := 8
    block_read := 1, block_write := 2, pids := 3, timestamp := 30 }

/-- Witness for C3 (amended): a concrete aggregated container bucket carries
no `block_read` key. -/
theorem c3_metric_aggregation_witness :
    List.lookup "block_read"
      (mkContainerBucket 0
        ([conD1].filter (fun s => decide (conBucketKey (interval_map "1h") s = 0)))) =
      none := by
  have hkey : conBucketKey (interval_map "1h") conD1 = 0 := by
    rw [show interval_map "1h" = 60 from rfl]
    norm_num [conBucketKey, interval_timestamp, pyInt, conD1]
  have hmem :
      mkContainerBucket 0
          ([conD1].filter (fun s => decide (conBucketKey (interval_map "1h") s = 0)))
        ∈ aggregate_container_stats [conD1] "1h" :=
    (mem_aggregate_container_stats [conD1] "1h" _).mpr
      ⟨0, ⟨conD1, by simp, hkey⟩, rfl⟩
  obtain ⟨k, l, hl, hne, hts2, h1, h2, h3, h4, h5, h6, h7, h8, hbr, hbw⟩ :=
    (c3_metric_aggregation "1h" [] [conD1]).2 _ hmem
  exact hbr

/-- The `periods` dict of `get_system_stats_history` (stats_service.py,
lines 355-363): lookback window in seconds, defaulting to 1 hour. -/
def periods_map (period : String) : ℕ :=
  (List.lookup period
    [("1h", 3600), ("6h", 21600), ("24h", 86400),
     ("7d", 604800), ("30d", 2592000)]).getD 3600

/-- `_serialize_system_stat` (stats_service.py, lines 532-547). -/
def serialize_system_stat (s : SystemStat) : PyDict :=
  [("id", (s.id : ℚ)),
   ("cpu_usage", s.cpu_usage),
   ("memory_usage", s.memory_usage),
   ("memory_total", s.memory_total),
   ("disk_usage", s.disk_usage),
   ("disk_total", s.disk_total),
   ("network_rx", s.network_rx),
   ("network_tx", s.network_tx),
   ("load_avg_1m", s.load_avg_1m),
   ("load_avg_5m", s.load_avg_5m),
   ("load_avg_15m", s.load_avg_15m),
   ("uptime", s.uptime),
   ("timestamp", s.timestamp)]

/-- Timestamp ordering on system samples, the `ORDER BY timestamp ASC` of
the history query. -/
def tsLE (a b : SystemStat) : Prop := a.timestamp ≤ b.timestamp

instance : DecidableRel tsLE :=
  fun a b => inferInstanceAs (Decidable (a.timestamp ≤ b.timestamp))

instance : IsTotal SystemStat tsLE :=
  ⟨fun a b => le_total a.timestamp b.timestamp⟩

instance : IsTrans SystemStat tsLE :=
  ⟨fun _ _ _ hab hbc => le_trans hab hbc⟩

/-- `get_system_stats_history(period, aggregate)` (stats_service.py, lines
348-376): select rows with `timestamp >= now - periods[period]` ascending;
aggregate only when `aggregate` is set and rows exist, else serialize. -/
def get_system_stats_history (db : List SystemStat) (now : ℚ)
    (period : String) (aggregate : Bool) : List PyDict :=
  let start_time := now - (periods_map period : ℚ)
  let stats :=
    List.insertionSort tsLE (db.filter (fun s => decide (start_time ≤ s.timestamp)))
  if aggregate ∧ stats ≠ [] then aggregate_system_stats stats period
  else stats.map serialize_system_stat

theorem dictGet_serialize_timestamp (s : SystemStat) :
    dictGet (serialize_system_stat s) "timestamp" 0 = s.timestamp := rfl

/-- The aggregate=false branch of the history query. -/
theorem get_system_stats_history_raw (db : List SystemStat) (now : ℚ)
    (period : String) :
    get_system_stats_history db now period false =
      (List.insertionSort tsLE
        (db.filter
          (fun s => decide (now - (periods_map period : ℚ) ≤ s.timestamp)))).map
        serialize_system_stat := by
  unfold get_system_stats_history
  rw [if_neg]
  simp

/-- C7 (amended): with `aggregate=false` the history query returns the raw
samples serialized, ascending by timestamp, restricted to
`timestamp ≥ now - window` with an inclusive boundary: a sample lying
exactly at `now - window` is returned. -/
theorem c7_history_raw (db : List SystemStat) (now : ℚ) (period : String) :
    List.Sorted (fun a b : ℚ => a ≤ b)
      ((get_system_stats_history db now period false).map
        (fun d => dictGet d "timestamp" 0)) ∧
    (∀ s ∈ db, now - (periods_map period : ℚ) ≤ s.timestamp →
      serialize_system_stat s ∈ get_system_stats_history db now period false) ∧
    (∀ d ∈ get_system_stats_history db now period false,
      ∃ s ∈ db, now - (periods_map period : ℚ) ≤ s.timestamp ∧
        d = serialize_system_stat s) := by
  rw [get_system_stats_history_raw]
  refine ⟨?_, ?_, ?_⟩
  · rw [List.map_map]
    have heq : ((fun d => dictGet d "timestamp" 0) ∘ serialize_system_stat) =
        fun s : SystemStat => s.timestamp := funext fun s => rfl
    rw [heq]
    have hsorted :=
      List.sorted_insertionSort tsLE
        (db.filter (fun s => decide (now - (periods_map period : ℚ) ≤ s.timestamp)))
    exact List.pairwise_map.mpr (hsorted.imp fun h => h)
  · intro s hs hcond
    refine List.mem_map_of_mem serialize_system_stat ?_
    exact (List.perm_insertionSort tsLE _).mem_iff.mpr
      (List.mem_filter.mpr ⟨hs, by simpa using hcond⟩)
  · intro d hd
    obtain ⟨t, ht, rfl⟩ := List.mem_map.mp hd
    have ht2 := (List.perm_insertionSort tsLE _).mem_iff.mp ht
    have ht3 := List.mem_filter.mp ht2
    exact ⟨t, ht3.1, by simpa using ht3.2, rfl⟩

/-- End-to-end scenario sample at `t = 0` with cpu 10. -/
def sysT0 : SystemStat :=
  { id := 1, cpu_usage := 10, memory_usage := 0, memory_total := 0
    disk_usage := 0, disk_total := 0, network_rx := 0, network_tx := 0
    load_avg_1m := 0, load_avg_5m := 0, load_avg_15m := 0
    uptime := 0, timestamp := 0 }

/-- End-to-end scenario sample at `t = 60` with cpu 20. -/
def sysT60 : SystemStat :=
  { id := 2, cpu_usage := 20, memory_usage := 0, memory_total := 0
    disk_usage := 0, disk_total := 0, network_rx := 0, network_tx := 0
    load_avg_1m := 0, load_avg_5m := 0, load_avg_15m := 0
    uptime := 0, timestamp := 60 }

/-- End-to-end scenario sample at `t = 3600` with cpu 90. -/
def sysT3600 : SystemStat :=
  { id := 3, cpu_usage := 90, memory_usage := 0, memory_total := 0
    disk_usage := 0, disk_total := 0, network_rx := 0, network_tx := 0
    load_avg_1m := 0, load_avg_5m := 0, load_avg_15m := 0
    uptime := 0, timestamp := 3600 }

/-- C7 counterexample: in the spec's end-to-end scenario (samples at t=0,
60, 3600; query at now=3600, period 1h, aggregate=false) the code returns
all THREE samples — the window test is `timestamp >= now - 1h`, which is
inclusive, so the t=0 sample does not fall outside the window as claimed. -/
theorem c7_counterexample :
    ((get_system_stats_history [sysT0, sysT60, sysT3600] 3600 "1h" false).map
      (fun d => dictGet d "timestamp" 0)) = [0, 60, 3600] ∧
    ¬ ((get_system_stats_history [sysT0, sysT60, sysT3600] 3600 "1h" false).map
      (fun d => dictGet d "timestamp" 0)) = [60, 3600] := by
  have hp : periods_map "1h" = 3600 := rfl
  have hfilter :
      ([sysT0, sysT60, sysT3600].filter
        (fun s => decide ((3600 : ℚ) - (periods_map "1h" : ℚ) ≤ s.timestamp))) =
      [sysT0, sysT60, sysT3600] := by
    rw [List.filter_eq_self]
    intro s hs
    rw [hp]
    fin_cases hs <;> norm_num [sysT0, sysT60, sysT3600]
  have hsort :
      List.insertionSort tsLE [sysT0, sysT60, sysT3600] =
        [sysT0, sysT60, sysT3600] := by
    norm_num [List.insertionSort, List.orderedInsert, tsLE,
      sysT0, sysT60, sysT3600]
  have hhist :
      get_system_stats_history [sysT0, sysT60, sysT3600] 3600 "1h" false =
        [serialize_system_stat sysT0, serialize_system_stat sysT60,
          serialize_system_stat sysT3600] := by
    rw [get_system_stats_history_raw, hfilter, hsort]
    rfl
  rw [hhist]
  constructor
  · rfl
  · intro h
    have h0 := congrArg (fun l => l.length) h
    simp at h0

/-- Witness for C7 (amended): the boundary sample `sysT0` at exactly
`now - window` is returned by the query. -/
theorem c7_history_raw_witness :
    serialize_system_stat sysT0 ∈
      get_system_stats_history [sysT0, sysT60, sysT3600] 3600 "1h" false := by
  refine (c7_history_raw [sysT0, sysT60, sysT3600] 3600 "1h").2.1 sysT0
    (by simp) ?_
  rw [show periods_map "1h" = 3600 from rfl]
  norm_num [sysT0]

/-- Python numeric `x or y`: `x` when truthy (nonzero), else `y`. -/
def pyOr (a b : ℚ) : ℚ := if a = 0 then b else a

/-- The first/last value read by `get_resource_trends`:
`stats[i].get(f"{metric}_avg", 0) or stats[i].get(metric, 0)`. -/
def trend_key (metric : String) (d : PyDict) : ℚ :=
  pyOr (dictGet d (metric ++ "_avg") 0) (dictGet d metric 0)

/-- Python `min(l, key=key)` (first minimal element), `None` on empty. -/
def pyMinBy (key : α → ℚ) : List α → Option α
  | [] => none
  | x :: xs => some (xs.foldl (fun b y => if key y < key b then y else b) x)

/-- Python `max(l, key=key)` (first maximal element), `None` on empty. -/
def pyMaxBy (key : α → ℚ) : List α → Option α
  | [] => none
  | x :: xs => some (xs.foldl (fun b y => if key b < key y then y else b) x)

/-- The return dict of `get_resource_trends`; `min_value` / `max_value`
are only present on the full branch. -/
structure TrendResult where
  metric : String
  period : String
  trend : String
  change_percent : ℚ
  data : List PyDict
  min_value : Option PyDict
  max_value : Option PyDict

/-- `get_resource_trends(metric, period)` (stats_service.py, lines 687-735):
reads the aggregated system history, compares first and last bucket values
obtained via the keys `f"{metric}_avg"` and `metric`, and classifies the
change with a ±5% dead-band. -/
def get_resource_trends (db : List SystemStat) (now : ℚ)
    (metric period : String) : TrendResult :=
  let stats := get_system_stats_history db now period true
  if stats = [] then
    { metric := metric, period := period, trend := "unknown"
      change_percent := 0, data := stats, min_value := none, max_value := none }
  else if stats.length < 2 then
    { metric := metric, period := period, trend := "stable"
      change_percent := 0, data := stats, min_value := none, max_value := none }
  else
    let first_value := trend_key metric stats.headI
    let last_value := trend_key metric (stats.getLast?.getD [])
    let change_percent :=
      if 0 < first_value then (last_value - first_value) / first_value * 100 else 0
    let trend :=
      if 5 < change_percent then "increasing"
      else if change_percent < -5 then "decreasing" else "stable"
    { metric := metric, period := period, trend := trend
      change_percent := pyRound2 change_percent, data := stats
      min_value := pyMinBy (trend_key metric) stats
      max_value := pyMaxBy (trend_key metric) stats }

theorem trend_key_mkSystemBucket (metric : String)
    (hm : metric ∈ ["cpu", "memory", "disk", "network"])
    (k : ℤ) (l : List SystemStat) :
    trend_key metric (mkSystemBucket k l) = 0 := by
  fin_cases hm <;> rfl

theorem lookup_mkSystemBucket_none (metric : String)
    (hm : metric ∈ ["cpu", "memory", "disk", "network"])
    (k : ℤ) (l : List SystemStat) :
    List.lookup (metric ++ "_avg") (mkSystemBucket k l) = none ∧
    List.lookup metric (mkSystemBucket k l) = none := by
  fin_cases hm <;> exact ⟨rfl, rfl⟩

/-- Every bucket of an aggregated history output has the emitted shape. -/
theorem history_aggregate_shape (db : List SystemStat) (now : ℚ)
    (period : String) (b : PyDict)
    (hb : b ∈ get_system_stats_history db now period true) :
    ∃ (k : ℤ) (l : List SystemStat), b = mkSystemBucket k l := by
  simp only [get_system_stats_history] at hb
  by_cases hst :
      List.insertionSort tsLE
        (db.filter (fun s => decide (now - (periods_map period : ℚ) ≤ s.timestamp))) = []
  · rw [if_neg (fun hc => hc.2 hst), hst] at hb
    simp at hb
  · rw [if_pos ⟨trivial, hst⟩] at hb
    obtain ⟨k, _, hb2⟩ := (mem_aggregate_system_stats _ _ _).mp hb
    exact ⟨k, _, hb2⟩

/-- C10: for every accepted trends metric name (cpu, memory, disk, network)
and any history with at least two aggregated buckets, the keys
`f"{metric}_avg"` and `metric` exist in no bucket (the buckets use
cpu_usage_avg, disk_usage, ... instead), so both the first and the last
value read are 0 and the result is always `change_percent = 0` with trend
`"stable"`, regardless of the underlying samples. -/
theorem c10_trends_always_stable (db : List SystemStat) (now : ℚ)
    (metric period : String)
    (hm : metric ∈ ["cpu", "memory", "disk", "network"])
    (hlen : 2 ≤ (get_system_stats_history db now period true).length) :
    (∀ b ∈ get_system_stats_history db now period true,
      List.lookup (metric ++ "_avg") b = none ∧ List.lookup metric b = none) ∧
    (get_resource_trends db now metric period).change_percent = 0 ∧
    (get_resource_trends db now metric period).trend = "stable" := by
  have hshape := history_aggregate_shape db now period
  have hlookups : ∀ b ∈ get_system_stats_history db now period true,
      List.lookup (metric ++ "_avg") b = none ∧ List.lookup metric b = none := by
    intro b hb
    obtain ⟨k, l, rfl⟩ := hshape b hb
    exact lookup_mkSystemBucket_none metric hm k l
  refine ⟨hlookups, ?_⟩
  have hne : get_system_stats_history db now period true ≠ [] := by
    intro h
    rw [h] at hlen
    simp at hlen
  have hnlt : ¬ (get_system_stats_history db now period true).length < 2 :=
    not_lt.mpr hlen
  have hheadI : (get_system_stats_history db now period true).headI ∈
      get_system_stats_history db now period true := by
    cases hh : get_system_stats_history db now period true with
    | nil => exact absurd hh hne
    | cons a t => simp [List.headI]
  have hfirst :
      trend_key metric (get_system_stats_history db now period true).headI = 0 := by
    obtain ⟨k, l, hb⟩ := hshape _ hheadI
    rw [hb]
    exact trend_key_mkSystemBucket metric hm k l
  refine ⟨?_, ?_⟩ <;>
    norm_num [get_resource_trends, hne, hnlt, hfirst, pyRound2, roundHalfEven]

/-- Witness for C10: system samples at `t = 0` (cpu 10) and `t = 60`
(cpu 20) produce two aggregated buckets, yet the trend result is
`change_percent = 0` and `"stable"`. -/
theorem c10_trends_always_stable_witness :
    (get_resource_trends [sysA2, sysB2] 100 "cpu" "1h").change_percent = 0 ∧
    (get_resource_trends [sysA2, sysB2] 100 "cpu" "1h").trend = "stable" := by
  have hfilter :
      [sysA2, sysB2].filter
        (fun s => decide ((100 : ℚ) - (periods_map "1h" : ℚ) ≤ s.timestamp)) =
      [sysA2, sysB2] := by
    rw [List.filter_eq_self]
    intro s hs
    rw [show periods_map "1h" = 3600 from rfl]
    fin_cases hs <;> norm_num [sysA2, sysB2]
  have hsort : List.insertionSort tsLE [sysA2, sysB2] = [sysA2, sysB2] := by
    norm_num [List.insertionSort, List.orderedInsert, tsLE, sysA2, sysB2]
  have hhist : get_system_stats_history [sysA2, sysB2] 100 "1h" true =
      aggregate_system_stats [sysA2, sysB2] "1h" := by
    simp only [get_system_stats_history]
    rw [hfilter, hsort, if_pos ⟨trivial, by simp⟩]
  have hk0 : sysBucketKey (interval_map "1h") sysA2 = 0 := by
    rw [show interval_map "1h" = 60 from rfl]
    norm_num [sysBucketKey, interval_timestamp, pyInt, sysA2]
  have hk60 : sysBucketKey (interval_map "1h") sysB2 = 60 := by
    rw [show interval_map "1h" = 60 from rfl]
    norm_num [sysBucketKey, interval_timestamp, pyInt, sysB2]
  have hagg : aggregate_system_stats [sysA2, sysB2] "1h" =
      [mkSystemBucket 0 [sysA2], mkSystemBucket 60 [sysB2]] := by
    simp [aggregate_system_stats, groupByKey, hk0, hk60, dictAppend, dictGetList,
      List.insertionSort, List.orderedInsert]
  have hlen : 2 ≤ (get_system_stats_history [sysA2, sysB2] 100 "1h" true).length := by
    rw [hhist, hagg]
    simp
  have h := c10_trends_always_stable [sysA2, sysB2] 100 "cpu" "1h" (by simp) hlen
  exact ⟨h.2.1, h.2.2⟩

/-- `prune_old_stats(retention_days)` (stats_service.py, lines 737-772):
count then delete, for each kind, the rows with
`timestamp < now - retention_days` days; returns the remaining stores and
the per-kind deleted counts. -/
def prune_old_stats (now : ℚ) (retention_days : ℕ)
    (sys : List SystemStat) (con : List ContainerStat) :
    List SystemStat × List ContainerStat × ℕ × ℕ :=
  ((sys.filter (fun s => decide (¬ s.timestamp < now - (retention_days : ℚ) * 86400))),
   (con.filter (fun s => decide (¬ s.timestamp < now - (retention_days : ℚ) * 86400))),
   (sys.filter (fun s => decide (s.timestamp < now - (retention_days : ℚ) * 86400))).length,
   (con.filter (fun s => decide (s.timestamp < now - (retention_days : ℚ) * 86400))).length)

/-- C8: prune deletes exactly the samples of both kinds with
`timestamp < now - retention_days`, leaves every sample at or after the
cutoff untouched (same rows, same order), returns the per-kind deleted
counts (deleted + kept partitions each store), and a second run at the same
instant deletes nothing and changes nothing. -/
theorem c8_prune (now : ℚ) (retention_days : ℕ)
    (sys : List SystemStat) (con : List ContainerStat) :
    (∀ s ∈ sys, s ∈ (prune_old_stats now retention_days sys con).1 ↔
      ¬ s.timestamp < now - (retention_days : ℚ) * 86400) ∧
    (∀ s ∈ con, s ∈ (prune_old_stats now retention_days sys con).2.1 ↔
      ¬ s.timestamp < now - (retention_days : ℚ) * 86400) ∧
    (prune_old_stats now retention_days sys con).1 =
      sys.filter (fun s => decide (now - (retention_days : ℚ) * 86400 ≤ s.timestamp)) ∧
    (prune_old_stats now retention_days sys con).2.1 =
      con.filter (fun s => decide (now - (retention_days : ℚ) * 86400 ≤ s.timestamp)) ∧
    (prune_old_stats now retention_days sys con).2.2.1 =
      (sys.filter
        (fun s => decide (s.timestamp < now - (retention_days : ℚ) * 86400))).length ∧
    (prune_old_stats now retention_days sys con).2.2.2 =
      (con.filter
        (fun s => decide (s.timestamp < now - (retention_days : ℚ) * 86400))).length ∧
    sys.length = (prune_old_stats now retention_days sys con).2.2.1 +
      (prune_old_stats now retention_days sys con).1.length ∧
    con.length = (prune_old_stats now retention_days sys con).2.2.2 +
      (prune_old_stats now retention_days sys con).2.1.length ∧
    prune_old_stats now retention_days
        (prune_old_stats now retention_days sys con).1
        (prune_old_stats now retention_days sys con).2.1 =
      ((prune_old_stats now retention_days sys con).1,
       (prune_old_stats now retention_days sys con).2.1, 0, 0) := by
  refine ⟨?_, ?_, ?_, ?_, rfl, rfl, ?_, ?_, ?_⟩
  · intro s hs
    constructor
    · intro hmem
      simpa using (List.mem_filter.mp hmem).2
    · intro hcond
      exact List.mem_filter.mpr ⟨hs, by simpa using hcond⟩
  · intro s hs
    constructor
    · intro hmem
      simpa using (List.mem_filter.mp hmem).2
    · intro hcond
      exact List.mem_filter.mpr ⟨hs, by simpa using hcond⟩
  · refine List.filter_congr ?_
    intro s _
    simp [not_lt]
  · refine List.filter_congr ?_
    intro s _
    simp [not_lt]
  · have h := @List.length_eq_length_filter_add SystemStat sys
      (fun s => decide (s.timestamp < now - (retention_days : ℚ) * 86400))
    have hc : (List.filter
          (fun x => !decide (x.timestamp < now - (retention_days : ℚ) * 86400)) sys) =
        (List.filter
          (fun s => decide (¬ s.timestamp < now - (retention_days : ℚ) * 86400)) sys) :=
      List.filter_congr fun a _ => decide_not.symm
    rw [hc] at h
    exact h
  · have h := @List.length_eq_length_filter_add ContainerStat con
      (fun s => decide (s.timestamp < now - (retention_days : ℚ) * 86400))
    have hc : (List.filter
          (fun x => !decide (x.timestamp < now - (retention_days : ℚ) * 86400)) con) =
        (List.filter
          (fun s => decide (¬ s.timestamp < now - (retention_days : ℚ) * 86400)) con) :=
      List.filter_congr fun a _ => decide_not.symm
    rw [hc] at h
    exact h
  · unfold prune_old_stats
    refine Prod.ext ?_ (Prod.ext ?_ (Prod.ext ?_ ?_)) <;> simp only
    · exact List.filter_eq_self.mpr fun a ha => (List.mem_filter.mp ha).2
    · exact List.filter_eq_self.mpr fun a ha => (List.mem_filter.mp ha).2
    · rw [List.length_eq_zero, List.filter_filter]
      refine List.filter_eq_nil_iff.mpr ?_
      intro a _
      by_cases h : a.timestamp < now - (retention_days : ℚ) * 86400 <;> simp [h]
    · rw [List.length_eq_zero, List.filter_filter]
      refine List.filter_eq_nil_iff.mpr ?_
      intro a _
      by_cases h : a.timestamp < now - (retention_days : ℚ) * 86400 <;> simp [h]

/-- An old system sample at `t = 0`, before the prune cutoff. -/
def sysOld8 : SystemStat :=
  { id := 1, cpu_usage := 1, memory_usage := 0, memory_total := 0
    disk_usage := 0, disk_total := 0, network_rx := 0, network_tx := 0
    load_avg_1m := 0, load_avg_5m := 0, load_avg_15m := 0
    uptime := 0, timestamp := 0 }

/-- A recent system sample at `t = 200000`, after the prune cutoff. -/
def sysNew8 : SystemStat :=
  { id := 2, cpu_usage := 2, memory_usage := 0, memory_total := 0
    disk_usage := 0, disk_total := 0, network_rx := 0, network_tx := 0
    load_avg_1m := 0, load_avg_5m := 0, load_avg_15m := 0
    uptime := 0, timestamp := 200000 }

/-- An old container sample at `t = 100`. -/
def conOld8 : ContainerStat :=
  { id := 1, container_id := 1, cpu_usage := 1, memory_usage := 0
    memory_limit := 0, network_rx := 0, network_tx := 0
    block_read := 0, block_write := 0, pids := 0, timestamp := 100 }

/-- A recent container sample at `t = 250000`. -/
def conNew8 : ContainerStat :=
  { id := 2, container_id := 1, cpu_usage := 2, memory_usage := 0
    memory_limit := 0, network_rx := 0, network_tx := 0
    block_read := 0, block_write := 0, pids := 0, timestamp := 250000 }

/-- Witness for C8 at `now = 259200` (3 days), `retention_days = 1`: the
`t = 0` sample is deleted, the `t = 200000` sample is kept. -/
theorem c8_prune_witness :
    sysOld8 ∉ (prune_old_stats 259200 1 [sysOld8, sysNew8] [conOld8, conNew8]).1 ∧
    sysNew8 ∈ (prune_old_stats 259200 1 [sysOld8, sysNew8] [conOld8, conNew8]).1 := by
  have h := c8_prune 259200 1 [sysOld8, sysNew8] [conOld8, conNew8]
  constructor
  · intro hmem
    have h2 := (h.1 sysOld8 (by simp)).mp hmem
    apply h2
    norm_num [sysOld8]
  · refine (h.1 sysNew8 (by simp)).mpr ?_
    norm_num [sysNew8]

/-- One committed row of the sample store: a host sample row or a container
sample row tied to a persisted container id, holding the formatted stats
that `collect_and_store_container_stats` copies into `ContainerStats`. -/
inductive StoreEntry where
  | system (s : SystemStat)
  | container (containerId : ℕ) (f : FormattedStats)
  deriving DecidableEq

/-- The environment of one tick of `_collection_loop`
(metrics_collector.py, lines 39-62): the host sample produced by
`get_current_system_stats`, the ids of the running containers returned by
`list_all_containers`, the per-container outcome of the raw stats fetch,
and the persisted `Container` lookup by runtime id. -/
structure TickEnv where
  hostStat : SystemStat
  containers : List String
  statsResult : String → Except String StatsSnapshot
  containerLookup : String → Option ℕ

/-- The formatted stats obtained for one container during the tick: a fetch
error propagates, otherwise `get_container_stats_formatted` runs. -/
def fetchFormatted (env : TickEnv) (cid : String) : Except String FormattedStats :=
  match env.statsResult cid with
  | Except.error e => Except.error e
  | Except.ok snap => get_container_stats_formatted cid snap

/-- `collect_and_store_container_stats` (stats_service.py, lines 315-346):
an error dict or a missing persisted Container returns `None` without
writing; otherwise the sample row is added and committed. -/
def collect_and_store_container_stats (env : TickEnv)
    (db : List StoreEntry) (cid : String) : List StoreEntry :=
  match fetchFormatted env cid with
  | Except.error _ => db
  | Except.ok f =>
    match env.containerLookup cid with
    | none => db
    | some pid => db ++ [StoreEntry.container pid f]

/-- The row a container contributes to the tick, when any. -/
def tickEntry (env : TickEnv) (cid : String) : Option StoreEntry :=
  match fetchFormatted env cid with
  | Except.error _ => none
  | Except.ok f =>
    match env.containerLookup cid with
    | none => none
    | some pid => some (StoreEntry.container pid f)

/-- The committed store after a full tick: the host sample is committed by
`collect_and_store_system_stats`, then each container commit runs in order. -/
def tickFinal (env : TickEnv) (db0 : List StoreEntry) : List StoreEntry :=
  List.foldl (collect_and_store_container_stats env)
    (db0 ++ [StoreEntry.system env.hostStat]) env.containers

/-- The sequence of reader-observable committed store states of one tick:
the state before the tick, the state after the host sample commit, and the
state after each container commit (each sub-call issues its own
`session.commit()`). -/
def tickStates (env : TickEnv) (db0 : List StoreEntry) : List (List StoreEntry) :=
  db0 :: List.scanl (collect_and_store_container_stats env)
    (db0 ++ [StoreEntry.system env.hostStat]) env.containers

theorem collect_container_eq_append (env : TickEnv) (db : List StoreEntry)
    (cid : String) :
    collect_and_store_container_stats env db cid = db ++ (tickEntry env cid).toList := by
  unfold collect_and_store_container_stats tickEntry
  cases hf : fetchFormatted env cid with
  | error e => simp
  | ok f =>
    cases hl : env.containerLookup cid with
    | none => simp
    | some pid => simp

theorem foldl_collect_eq (env : TickEnv) (l : List String) :
    ∀ db : List StoreEntry,
      List.foldl (collect_and_store_container_stats env) db l =
        db ++ l.filterMap (tickEntry env) := by
  induction l with
  | nil => intro db; simp
  | cons c l ih =>
      intro db
      rw [List.foldl_cons, ih, collect_container_eq_append]
      cases he : tickEntry env c with
      | none => simp [List.filterMap_cons, he]
      | some e => simp [List.filterMap_cons, he]

/-- The final committed state of a tick, in closed form. -/
theorem tickFinal_eq (env : TickEnv) (db0 : List StoreEntry) :
    tickFinal env db0 =
      db0 ++ StoreEntry.system env.hostStat :: env.containers.filterMap (tickEntry env) := by
  unfold tickFinal
  rw [foldl_collect_eq]
  simp

/-- C6: within one tick, a failure sampling one container (fetch error, or
no persisted Container row) only omits that container's row: the final
committed state consists of the prior store, the host sample, and exactly
the rows of the containers whose sampling succeeded, each of which is
persisted regardless of other containers' failures. -/
theorem c6_failure_isolation (env : TickEnv) (db0 : List StoreEntry) :
    (tickFinal env db0 =
      db0 ++ StoreEntry.system env.hostStat ::
        env.containers.filterMap (tickEntry env)) ∧
    StoreEntry.system env.hostStat ∈ tickFinal env db0 ∧
    (∀ cid ∈ env.containers, ∀ f pid,
      fetchFormatted env cid = Except.ok f →
      env.containerLookup cid = some pid →
      StoreEntry.container pid f ∈ tickFinal env db0) := by
  refine ⟨tickFinal_eq env db0, ?_, ?_⟩
  · rw [tickFinal_eq]
    exact List.mem_append_right _ (List.mem_cons_self _ _)
  · intro cid hcid f pid hf hl
    rw [tickFinal_eq]
    refine List.mem_append_right _ (List.mem_cons_of_mem _ ?_)
    refine List.mem_filterMap.mpr ⟨cid, hcid, ?_⟩
    unfold tickEntry
    rw [hf, hl]

theorem scanl_head (f : β → α → β) (b : β) (l : List α) :
    (List.scanl f b l).head? = some b := by
  cases l <;> rfl

theorem scanl_ne_nil (f : β → α → β) (b : β) (l : List α) :
    List.scanl f b l ≠ [] := by
  cases l <;> simp [List.scanl]

theorem scanl_getLast (f : β → α → β) (l : List α) :
    ∀ b : β, (List.scanl f b l).getLast? = some (List.foldl f b l) := by
  induction l with
  | nil => intro b; rfl
  | cons c l ih =>
      intro b
      rw [List.scanl_cons, List.foldl_cons,
        List.getLast?_append_of_ne_nil _ (scanl_ne_nil f (f b c) l), ih]

theorem chain'_scanl (f : β → α → β) (R : β → β → Prop)
    (hR : ∀ db c, R db (f db c)) :
    ∀ (l : List α) (b : β), List.Chain' R (List.scanl f b l) := by
  intro l
  induction l with
  | nil => intro b; exact List.chain'_singleton b
  | cons c l ih =>
      intro b
      rw [List.scanl_cons, List.singleton_append]
      refine List.chain'_cons'.mpr ⟨?_, ih (f b c)⟩
      intro y hy
      rw [scanl_head] at hy
      cases hy
      exact hR b c

/-- C5 (amended): a tick does not commit its samples as one unit; it
commits them one at a time. Starting from the pre-tick store, the sequence
of reader-observable committed states appends at most one sample per
commit (host first, then each container), and its last element is the final
tick state containing the host sample and all successfully collected
container samples. -/
theorem c5_per_sample_commits (env : TickEnv) (db0 : List StoreEntry) :
    (tickStates env db0).head? = some db0 ∧
    List.Chain' (fun a b => b = a ∨ ∃ e, b = a ++ [e]) (tickStates env db0) ∧
    (tickStates env db0).getLast? = some (tickFinal env db0) ∧
    tickFinal env db0 =
      db0 ++ StoreEntry.system env.hostStat ::
        env.containers.filterMap (tickEntry env) := by
  refine ⟨rfl, ?_, ?_, tickFinal_eq env db0⟩
  · unfold tickStates
    refine List.chain'_cons'.mpr ⟨?_, ?_⟩
    · intro y hy
      rw [scanl_head] at hy
      cases hy
      exact Or.inr ⟨StoreEntry.system env.hostStat, rfl⟩
    · refine chain'_scanl _ _ ?_ env.containers _
      intro db c
      rw [collect_container_eq_append]
      cases he : tickEntry env c with
      | none => exact Or.inl (by simp)
      | some e => exact Or.inr ⟨e, by simp⟩
  · unfold tickStates tickFinal
    rw [List.getLast?_cons, scanl_getLast]
    simp

/-- The host sample of the C5/C6 tick scenarios. -/
def hostC6 : SystemStat :=
  { id := 9, cpu_usage := 3, memory_usage := 0, memory_total := 0
    disk_usage := 0, disk_total := 0, network_rx := 0, network_tx := 0
    load_avg_1m := 0, load_avg_5m := 0, load_avg_15m := 0
    uptime := 0, timestamp := 120 }

/-- The raw snapshot successfully fetched for container A. -/
def snapA6 : StatsSnapshot :=
  { cpu_stats := ⟨⟨200⟩, 2000, some 2⟩
    precpu_stats := ⟨⟨100⟩, 1000, some 2⟩
    memory_stats := ⟨some 500, some 1000⟩
    networks := none
    blkio_stats := none
    pids_stats := none }

/-- The formatted stats of container A under `snapA6`. -/
def fmtA6 : FormattedStats :=
  { container_id := "A", cpu_usage := 20, memory_usage := 500
    memory_limit := 1000, memory_percent := 50, network_rx := 0
    network_tx := 0, block_read := 0, block_write := 0, pids := 0 }

/-- A tick over containers A and B where sampling B fails with a runtime
error; A has persisted id 1, B id 2. -/
def envC6 : TickEnv :=
  { hostStat := hostC6
    containers := ["A", "B"]
    statsResult := fun cid =>
      if cid = "B" then Except.error "boom" else Except.ok snapA6
    containerLookup := fun cid =>
      if cid = "A" then some 1 else if cid = "B" then some 2 else none }

theorem fetchFormatted_envC6_A :
    fetchFormatted envC6 "A" = Except.ok fmtA6 := by
  have h1 : envC6.statsResult "A" = Except.ok snapA6 := rfl
  unfold fetchFormatted
  rw [h1]
  norm_num [get_container_stats_formatted, cpu_percent, cpu_delta,
    system_delta, num_cpus, pyRound2, roundHalfEven, network_rx_of,
    network_tx_of, block_read_of, block_write_of, pids_of, snapA6, fmtA6]

theorem tickEntry_envC6_A :
    tickEntry envC6 "A" = some (StoreEntry.container 1 fmtA6) := by
  unfold tickEntry
  rw [fetchFormatted_envC6_A]
  rfl

theorem tickEntry_envC6_B : tickEntry envC6 "B" = none := rfl

/-- C5 counterexample: in a tick over containers A (succeeds) and B
(fails), the committed state right after the host commit — state index 1 of
the tick, visible to concurrent readers — contains the host sample but not
container A's sample of the same tick, while the final state does: a reader
can observe a partially-written tick, so the tick's samples are not
committed as one unit. -/
theorem c5_counterexample :
    (tickStates envC6 []).get? 1 = some [StoreEntry.system hostC6] ∧
    StoreEntry.container 1 fmtA6 ∈ tickFinal envC6 [] ∧
    StoreEntry.container 1 fmtA6 ∉ [StoreEntry.system hostC6] := by
  refine ⟨rfl, ?_, by simp⟩
  rw [tickFinal_eq]
  simp [List.filterMap_cons, tickEntry_envC6_A, tickEntry_envC6_B,
    show envC6.containers = ["A", "B"] from rfl]

/-- Witness for C6: the tick of `envC6` — where sampling container B
fails — still persists the host sample and container A's sample. -/
theorem c6_failure_isolation_witness :
    StoreEntry.system hostC6 ∈ tickFinal envC6 [] ∧
    StoreEntry.container 1 fmtA6 ∈ tickFinal envC6 [] := by
  have h := c6_failure_isolation envC6 []
  refine ⟨h.2.1, ?_⟩
  refine h.2.2 "A" (by simp [envC6]) fmtA6 1 fetchFormatted_envC6_A rfl

end InfraMon
